import Mathlib

/-!
Verification development for the sales reporting script
(`Business_reporting_tool.py`).

The script is a linear pipeline: load `config.json`, create the output
directory, set up logging, load the CSV into a dataframe, validate that the
`revenue` and `cost` columns exist, aggregate metrics, persist a four-row
summary, and render a daily-revenue chart.

The embedding models a dataframe column-orientedly as an ordered association
list of column names to value lists (pandas keeps columns ordered and assigns
`df[name] = ...` in place, appending a new column at the end when the name is
fresh).  Numbers are exact rationals.  Dates are abstracted as naturals
(ordinal day numbers), matching the total order pandas uses when grouping and
plotting by a parsed date column.  The script's observable behaviour (log
lines, file writes, exit code) is modelled as a trace of events computed from
an abstract world describing the environment's behaviour.
-/

/-- A cell value of the loaded table: a number, a parsed calendar date
(abstracted as an ordinal day number), or free-form text. -/
inductive Value where
  | num (q : ℚ)
  | date (d : ℕ)
  | str (s : String)
deriving DecidableEq, Repr

/-- A dataframe: an ordered list of named columns, as produced by
`pd.read_csv`.  Row `i` of the table is the `i`-th entry of every column. -/
structure DataFrame where
  cols : List (String × List Value)
deriving DecidableEq, Repr

/-- The column names of a dataframe, in order (`df.columns`). -/
def DataFrame.colNames (df : DataFrame) : List String :=
  df.cols.map Prod.fst

/-- Column access `df[c]`: the first column named `c`, if any. -/
def getCol (df : DataFrame) (c : String) : Option (List Value) :=
  List.lookup c df.cols

/-- Column assignment `df[c] = vals`: replaces the column named `c` in place
when it exists, otherwise appends it at the end (pandas semantics). -/
def setCol (df : DataFrame) (c : String) (vals : List Value) : DataFrame :=
  if c ∈ df.colNames then
    ⟨df.cols.map (fun p => if p.1 = c then (p.1, vals) else p)⟩
  else
    ⟨df.cols ++ [(c, vals)]⟩

/-- Every row of the table has one entry in every column. -/
def DataFrame.wellFormed (df : DataFrame) : Prop :=
  ∀ p ∈ df.cols, ∀ q ∈ df.cols, p.2.length = q.2.length

instance (df : DataFrame) : Decidable df.wellFormed := by
  unfold DataFrame.wellFormed; infer_instance

/-- Reads a whole column as numbers; `none` when some cell is not numeric
(the pandas arithmetic on such a column raises, which the script's broad
`except` turns into a fatal error). -/
def asNums : List Value → Option (List ℚ)
  | [] => some []
  | Value.num q :: vs => (asNums vs).map (fun qs => q :: qs)
  | _ :: _ => none

/-- Reads a whole column as parsed dates. -/
def asDates : List Value → Option (List ℕ)
  | [] => some []
  | Value.date d :: vs => (asDates vs).map (fun ds => d :: ds)
  | _ :: _ => none

/-- `df[c]` read as a numeric series. -/
def getNumCol (df : DataFrame) (c : String) : Option (List ℚ) :=
  match getCol df c with
  | some vs => asNums vs
  | none => none

/-- The schema validation loop: `for col in ["revenue", "cost"]: if col not
in df.columns: ...exit`.  Returns the first missing required column. -/
def checkRequired (df : DataFrame) : Option String :=
  if "revenue" ∈ df.colNames then
    if "cost" ∈ df.colNames then none else some "cost"
  else some "revenue"

/-- Python's `round(x, 2)`: round to two decimal places. -/
def round2 (x : ℚ) : ℚ :=
  ((round (x * 100) : ℤ) : ℚ) / 100

/-- The aggregate metrics computed by the script. -/
structure Agg where
  total_revenue : ℚ
  total_cost : ℚ
  total_profit : ℚ
  profit_margin : ℚ
deriving DecidableEq, Repr

/-- The aggregation stage (the body of the metrics `try` block up to the
summary): adds `df["profit"] = df["revenue"] - df["cost"]`, sums the three
columns, and computes
`profit_margin = total_profit / total_revenue if total_revenue != 0 else 0`.
Returns `none` when the column arithmetic faults (non-numeric data), which
the script's broad `except` turns into a fatal exit. -/
def aggregateStage (df : DataFrame) : Option (DataFrame × Agg) :=
  match getNumCol df "revenue", getNumCol df "cost" with
  | some rev, some cost =>
      let profit := List.zipWith (fun a b => a - b) rev cost
      let df2 := setCol df "profit" (profit.map Value.num)
      let total_revenue := rev.sum
      let total_cost := cost.sum
      let total_profit := profit.sum
      let profit_margin := if total_revenue ≠ 0 then total_profit / total_revenue else 0
      some (df2, ⟨total_revenue, total_cost, total_profit, profit_margin⟩)
  | _, _ => none

/-- The four-row summary dataframe, as (Metric, Value) pairs. -/
def mkSummary (agg : Agg) : List (String × ℚ) :=
  [("Total Revenue", agg.total_revenue),
   ("Total Cost", agg.total_cost),
   ("Total Profit", agg.total_profit),
   ("Profit Margin (%)", round2 (agg.profit_margin * 100))]

/-- Revenue summed over exactly the rows whose date equals `d`. -/
def sumFor (rows : List (ℕ × ℚ)) (d : ℕ) : ℚ :=
  ((rows.filter (fun r => r.1 == d)).map Prod.snd).sum

/-- `df.groupby(DATE_COLUMN)["revenue"].sum()`: one entry per distinct date
of the input, keys sorted ascending, each mapped to the summed revenue of its
group. -/
def dailyRevenue (rows : List (ℕ × ℚ)) : List (ℕ × ℚ) :=
  (List.insertionSort (· ≤ ·) (rows.map Prod.fst).dedup).map
    (fun d => (d, sumFor rows d))

/-- The daily revenue series of a dataframe: pairs the date column with the
revenue column and groups; `none` when the date column is absent or not
date-typed (the groupby raises, caught by the plotting `except`). -/
def dailyRevenueOf (df : DataFrame) (c : String) : Option (List (ℕ × ℚ)) :=
  match getCol df c, getNumCol df "revenue" with
  | some dvs, some revs =>
      match asDates dvs with
      | some ds => some (dailyRevenue (ds.zip revs))
      | none => none
  | _, _ => none

/-- The resolved configuration (the seven `config.get(...)` values). -/
structure Config where
  data_file : String
  date_column : String
  log_file : String
  plot_title : String
  plot_xlabel : String
  plot_ylabel : String
  output_dir : String
deriving DecidableEq, Repr

/-- Outcome of `pd.read_csv` on the environment's data file. -/
inductive LoadOutcome where
  | ok (df : DataFrame)
  | fileNotFound
  | parseError (e : String)
  | otherError (e : String)
deriving DecidableEq, Repr

/-- The environment a run executes in: whether `config.json` loads, what the
CSV load yields, and whether the summary write or the chart rendering
faults. -/
structure World where
  config : Option Config
  load : LoadOutcome
  summaryWriteFails : Bool
  plotFails : Bool

/-- An observable step of a run: directory creation, logging, console
output, file writes, and process exit. -/
inductive Event where
  | mkdirOutput
  | logSetup
  | logInfo (msg : String)
  | logError (msg : String)
  | printOut (msg : String)
  | writeSummary (rows : List (String × ℚ))
  | writeChart (series : List (ℕ × ℚ))
  | showChart
  | exited (code : ℕ)
deriving DecidableEq, Repr

/-- The plotting stage (the final `try` block): group daily revenue, render
and save the chart, show it; any fault is logged and swallowed. -/
def plotEvents (w : World) (cfg : Config) (df2 : DataFrame) : List Event :=
  match dailyRevenueOf df2 cfg.date_column with
  | none => [Event.logError "Error plotting daily revenue"]
  | some series =>
      if w.plotFails then [Event.logError "Error plotting daily revenue"]
      else
        [Event.writeChart series, Event.showChart,
         Event.logInfo "Daily revenue plot saved", Event.printOut "Plot saved to"]

/-- The part of the run from the CSV load to the end (source lines 40-103):
CSV load (exit 1 on failure), required-column check (exit 1 naming the first
missing column), metrics aggregation and summary persistence inside one
`try` (exit 1 on any fault there), then the isolated plotting `try` and
normal termination. -/
def afterConfig (w : World) (cfg : Config) : List Event :=
  match w.load with
  | LoadOutcome.fileNotFound =>
      [Event.logError ("Data file '" ++ cfg.data_file ++ "' not found."),
       Event.exited 1]
  | LoadOutcome.parseError e =>
      [Event.logError ("Error parsing CSV file: " ++ e), Event.exited 1]
  | LoadOutcome.otherError e =>
      [Event.logError ("Unexpected error loading data: " ++ e), Event.exited 1]
  | LoadOutcome.ok df =>
      Event.logInfo ("Loaded data from " ++ cfg.data_file ++ " successfully.") ::
      (match checkRequired df with
       | some c =>
           [Event.logError ("Missing required column: " ++ c), Event.exited 1]
       | none =>
           match aggregateStage df with
           | none => [Event.logError "Error calculating metrics", Event.exited 1]
           | some (df2, agg) =>
               Event.printOut "=== BUSINESS PERFORMANCE SUMMARY ===" ::
               Event.logInfo "Metrics calculated and summary printed successfully." ::
               (if w.summaryWriteFails then
                  [Event.logError "Error calculating metrics", Event.exited 1]
                else
                  Event.writeSummary (mkSummary agg) ::
                  Event.logInfo "Summary saved" ::
                  Event.printOut "Summary saved to" ::
                  (plotEvents w cfg df2 ++ [Event.exited 0])))

/-- The whole script, top to bottom, as the trace of events it produces in
world `w`.  Mirrors the source line by line: config load (exit 1 on
failure), `Path(OUTPUT_DIR).mkdir`, `logging.basicConfig`, then
`afterConfig`. -/
def runScript (w : World) : List Event :=
  match w.config with
  | none => [Event.printOut "Configuration file error", Event.exited 1]
  | some cfg =>
      Event.mkdirOutput :: Event.logSetup :: Event.logInfo "Script started" ::
      afterConfig w cfg

/-- The exit status of a trace: the code of the first `exited` event. -/
def exitCode : List Event → Option ℕ
  | [] => none
  | Event.exited c :: _ => some c
  | _ :: t => exitCode t

/-- The summary rows written to the summary artifact, if any were. -/
def summaryRows : List Event → Option (List (String × ℚ))
  | [] => none
  | Event.writeSummary s :: _ => some s
  | _ :: t => summaryRows t

/-- Whether the chart artifact was written. -/
def writesChart : List Event → Bool
  | [] => false
  | Event.writeChart _ :: _ => true
  | _ :: t => writesChart t

/-- The default configuration (all seven `config.get` defaults). -/
def cfg0 : Config :=
  ⟨"sales_data.csv", "date", "sales_analysis.log", "Daily Revenue Trend",
   "Date", "Revenue", "outputs"⟩

/-- Scenario A of the spec: rows `(d1, 100, 40)`, `(d1, 50, 10)`,
`(d2, 0, 0)` with `d1 = 1`, `d2 = 2`. -/
def df7 : DataFrame :=
  ⟨[("date", [Value.date 1, Value.date 1, Value.date 2]),
    ("revenue", [Value.num 100, Value.num 50, Value.num 0]),
    ("cost", [Value.num 40, Value.num 10, Value.num 0])]⟩

/-- Scenario A after the aggregation stage added the `profit` column. -/
def df7out : DataFrame :=
  ⟨df7.cols ++ [("profit", [Value.num 60, Value.num 40, Value.num 0])]⟩

/-- The aggregate metrics of scenario A. -/
def agg7 : Agg := ⟨150, 50, 100, 2/3⟩

/-- A one-row table whose total revenue is zero (and cost is not). -/
def dfZero : DataFrame :=
  ⟨[("date", [Value.date 1]), ("revenue", [Value.num 0]), ("cost", [Value.num 5])]⟩

/-- `dfZero` after the aggregation stage. -/
def dfZeroOut : DataFrame :=
  ⟨dfZero.cols ++ [("profit", [Value.num (-5)])]⟩

/-- The aggregate metrics of `dfZero`: margin 0, no fault. -/
def aggZero : Agg := ⟨0, 5, -5, 0⟩

/-- A zero-row table that still has the required columns. -/
def dfEmpty : DataFrame :=
  ⟨[("date", []), ("revenue", []), ("cost", [])]⟩

/-- A table missing the required `cost` column. -/
def dfMissing : DataFrame :=
  ⟨[("date", [Value.date 1]), ("revenue", [Value.num 1])]⟩

/-- A world whose CSV lacks the `cost` column. -/
def w4 : World := ⟨some cfg0, LoadOutcome.ok dfMissing, false, false⟩

/-- A single-row table with revenue 7 and cost 3. -/
def df2w : DataFrame :=
  ⟨[("revenue", [Value.num 7]), ("cost", [Value.num 3])]⟩

/-- `df2w` after the aggregation stage. -/
def df2wOut : DataFrame :=
  ⟨df2w.cols ++ [("profit", [Value.num (7 - 3)])]⟩

/-- The aggregate metrics of `df2w`. -/
def agg2w : Agg := ⟨7, 3, 7 - 3, (7 - 3) / 7⟩

/-- A single-row table with a date column, revenue 5 and cost 2. -/
def df5w : DataFrame :=
  ⟨[("date", [Value.date 3]), ("revenue", [Value.num 5]), ("cost", [Value.num 2])]⟩

/-- `df5w` after the aggregation stage. -/
def df5wOut : DataFrame :=
  ⟨df5w.cols ++ [("profit", [Value.num (5 - 2)])]⟩

/-- The aggregate metrics of `df5w`. -/
def agg5w : Agg := ⟨5, 2, 5 - 2, (5 - 2) / 5⟩

/-- A world that reaches the plotting stage and faults while rendering. -/
def w5 : World := ⟨some cfg0, LoadOutcome.ok df5w, false, true⟩

/-- A fully successful world on scenario A. -/
def w10 : World := ⟨some cfg0, LoadOutcome.ok df7, false, false⟩

/-! ## Helper lemmas -/

theorem asNums_length {vs : List Value} {qs : List ℚ} (h : asNums vs = some qs) :
    qs.length = vs.length := by
  induction vs generalizing qs with
  | nil => simp [asNums] at h; simp [← h]
  | cons v vs ih =>
    cases v with
    | num q =>
      simp only [asNums, Option.map_eq_some'] at h
      obtain ⟨qs', h1, h2⟩ := h
      subst h2
      simp [ih h1]
    | date d => simp [asNums] at h
    | str s => simp [asNums] at h

theorem lookup_mem {α β : Type} [BEq α] [LawfulBEq α] {l : List (α × β)} {c : α}
    {v : β} (h : List.lookup c l = some v) : (c, v) ∈ l := by
  induction l with
  | nil => simp [List.lookup] at h
  | cons p t ih =>
    obtain ⟨k, b⟩ := p
    rw [List.lookup] at h
    by_cases hk : c == k
    · have hek : c = k := eq_of_beq hk
      rw [hk] at h
      simp only [Option.some.injEq] at h
      subst h
      subst hek
      exact List.mem_cons_self _ _
    · rw [Bool.eq_false_iff.mpr hk] at h
      exact List.mem_cons_of_mem _ (ih h)

theorem lookup_append_left {α β : Type} [BEq α] [LawfulBEq α]
    {l₁ l₂ : List (α × β)} {c : α} (h : c ∈ l₁.map Prod.fst) :
    List.lookup c (l₁ ++ l₂) = List.lookup c l₁ := by
  induction l₁ with
  | nil => simp at h
  | cons p t ih =>
    obtain ⟨k, b⟩ := p
    rw [List.cons_append, List.lookup, List.lookup]
    by_cases hk : c == k
    · rw [hk]
    · rw [Bool.eq_false_iff.mpr hk]
      refine ih ?_
      simp only [List.map_cons, List.mem_cons] at h
      rcases h with h | h
      · exact absurd (beq_iff_eq.mpr h) hk
      · exact h

theorem sum_zipWith_sub {a b : List ℚ} (h : a.length = b.length) :
    (List.zipWith (fun x y => x - y) a b).sum = a.sum - b.sum := by
  induction a generalizing b with
  | nil =>
    cases b with
    | nil => simp
    | cons y b => simp at h
  | cons x a ih =>
    cases b with
    | nil => simp at h
    | cons y b =>
      simp only [List.zipWith_cons_cons, List.sum_cons]
      rw [ih (by simpa using h)]
      ring

theorem getNumCol_inv {df : DataFrame} {c : String} {qs : List ℚ}
    (h : getNumCol df c = some qs) :
    ∃ vs, getCol df c = some vs ∧ asNums vs = some qs := by
  unfold getNumCol at h
  cases hc : getCol df c with
  | none => rw [hc] at h; exact absurd h (by simp)
  | some vs => rw [hc] at h; exact ⟨vs, rfl, h⟩

theorem aggregateStage_inv {df df2 : DataFrame} {agg : Agg}
    (h : aggregateStage df = some (df2, agg)) :
    ∃ rev cost,
      getNumCol df "revenue" = some rev ∧ getNumCol df "cost" = some cost ∧
      df2 = setCol df "profit" ((List.zipWith (fun a b => a - b) rev cost).map Value.num) ∧
      agg.total_revenue = rev.sum ∧
      agg.total_cost = cost.sum ∧
      agg.total_profit = (List.zipWith (fun a b => a - b) rev cost).sum ∧
      agg.profit_margin =
        if rev.sum ≠ 0 then (List.zipWith (fun a b => a - b) rev cost).sum / rev.sum
        else 0 := by
  unfold aggregateStage at h
  cases hr : getNumCol df "revenue" with
  | none => rw [hr] at h; exact absurd h (by simp)
  | some rev =>
    cases hc : getNumCol df "cost" with
    | none => rw [hr, hc] at h; exact absurd h (by simp)
    | some cost =>
      rw [hr, hc] at h
      simp only [Option.some.injEq, Prod.mk.injEq] at h
      obtain ⟨h1, h2⟩ := h
      subst h1
      subst h2
      exact ⟨rev, cost, rfl, rfl, rfl, rfl, rfl, rfl, rfl⟩

theorem setCol_fresh {df : DataFrame} {c : String} {vals : List Value}
    (h : c ∉ df.colNames) : setCol df c vals = ⟨df.cols ++ [(c, vals)]⟩ := by
  unfold setCol
  rw [if_neg h]

/-! ## Claims -/

/-- Claim C1: for every validated table on which the aggregation stage
succeeds, `profit_margin` equals `total_profit / total_revenue`, and when
`total_revenue` is exactly zero it is defined as `0` with no
division-by-zero fault (the stage still returns a result, as the witness
shows on a zero-revenue table). -/
theorem c1_profit_margin (df df2 : DataFrame) (agg : Agg)
    (h : aggregateStage df = some (df2, agg)) :
    (agg.total_revenue = 0 → agg.profit_margin = 0) ∧
    (agg.total_revenue ≠ 0 →
      agg.profit_margin = agg.total_profit / agg.total_revenue) := by
  obtain ⟨rev, cost, _, _, _, htr, _, htp, hpm⟩ := aggregateStage_inv h
  constructor
  · intro h0
    rw [htr] at h0
    rw [hpm, if_neg (by simpa using h0)]
  · intro h0
    rw [htr] at h0
    rw [hpm, if_pos h0, htp, htr]

/-- Witness for C1 on a table whose total revenue is zero: the aggregation
succeeds and reports margin 0. -/
theorem c1_witness :
    aggregateStage dfZero = some (dfZeroOut, aggZero) ∧
    aggZero.total_revenue = 0 ∧ aggZero.profit_margin = 0 := by
  have h : aggregateStage dfZero = some (dfZeroOut, aggZero) := by
    simp [aggregateStage, getNumCol, getCol, dfZero, asNums, setCol,
      DataFrame.colNames, List.lookup, dfZeroOut, aggZero]
  exact ⟨h, rfl, (c1_profit_margin dfZero dfZeroOut aggZero h).1 rfl⟩

/-- Claim C2: for every well-formed table on which the aggregation stage
succeeds, `total_profit = total_revenue - total_cost` (the per-row profit
column is `revenue - cost` and the totals are the column sums). -/
theorem c2_total_profit (df df2 : DataFrame) (agg : Agg)
    (hwf : df.wellFormed) (h : aggregateStage df = some (df2, agg)) :
    agg.total_profit = agg.total_revenue - agg.total_cost := by
  obtain ⟨rev, cost, hr, hc, _, htr, htc, htp, _⟩ := aggregateStage_inv h
  obtain ⟨rvs, hrl, hra⟩ := getNumCol_inv hr
  obtain ⟨cvs, hcl, hca⟩ := getNumCol_inv hc
  have hlen : rev.length = cost.length := by
    have h1 := asNums_length hra
    have h2 := asNums_length hca
    have h3 : rvs.length = cvs.length :=
      hwf ("revenue", rvs) (lookup_mem hrl) ("cost", cvs) (lookup_mem hcl)
    rw [h1, h2]
    exact h3
  rw [htp, htr, htc, sum_zipWith_sub hlen]

/-- Witness for C2 on a concrete one-row table. -/
theorem c2_witness : agg2w.total_profit = agg2w.total_revenue - agg2w.total_cost :=
  c2_total_profit df2w df2wOut agg2w (by decide)
    (by simp [aggregateStage, getNumCol, getCol, df2w, asNums, setCol,
      DataFrame.colNames, List.lookup, df2wOut, agg2w])

/-- Claim C3: the daily revenue series maps each of its dates to the sum of
revenue over exactly the rows carrying that date, contains only dates that
occur in the input (and all of them), and its dates are strictly
ascending. -/
theorem c3_daily_revenue (rows : List (ℕ × ℚ)) :
    (∀ p ∈ dailyRevenue rows, p.2 = sumFor rows p.1 ∧ p.1 ∈ rows.map Prod.fst) ∧
    (∀ d ∈ rows.map Prod.fst, (d, sumFor rows d) ∈ dailyRevenue rows) ∧
    List.Sorted (· < ·) ((dailyRevenue rows).map Prod.fst) := by
  refine ⟨?_, ?_, ?_⟩
  · intro p hp
    unfold dailyRevenue at hp
    rw [List.mem_map] at hp
    obtain ⟨d, hd, hdp⟩ := hp
    subst hdp
    refine ⟨rfl, ?_⟩
    have hd' : d ∈ (rows.map Prod.fst).dedup := (List.mem_insertionSort _).mp hd
    exact List.mem_dedup.mp hd'
  · intro d hd
    unfold dailyRevenue
    rw [List.mem_map]
    exact ⟨d, (List.mem_insertionSort _).mpr (List.mem_dedup.mpr hd), rfl⟩
  · unfold dailyRevenue
    rw [List.map_map]
    have hid : (Prod.fst ∘ fun d => (d, sumFor rows d)) = id := rfl
    rw [hid, List.map_id]
    exact (List.sorted_insertionSort _ _).lt_of_le
      ((List.perm_insertionSort _ _).nodup_iff.mpr (List.nodup_dedup _))

/-- Witness for C3 on the concrete rows `[(2, 5), (1, 3)]`. -/
theorem c3_witness :
    ((3 : ℚ) = sumFor [(2, 5), (1, 3)] 1 ∧
      (1 : ℕ) ∈ ([(2, 5), (1, 3)] : List (ℕ × ℚ)).map Prod.fst) ∧
    List.Sorted (· < ·) ((dailyRevenue [(2, 5), (1, 3)]).map Prod.fst) :=
  ⟨(c3_daily_revenue [(2, 5), (1, 3)]).1 ((1 : ℕ), (3 : ℚ))
      (by simp [dailyRevenue, sumFor, List.insertionSort, List.orderedInsert,
        List.dedup]),
    (c3_daily_revenue [(2, 5), (1, 3)]).2.2⟩

/-- Claim C4: when the loaded table lacks the `revenue` or the `cost`
column, the run logs the specific missing column name and exits with status
1 before any aggregation, writing neither the summary nor the chart
artifact. -/
theorem c4_missing_column (w : World) (cfg : Config) (df : DataFrame)
    (hcfg : w.config = some cfg) (hload : w.load = LoadOutcome.ok df)
    (hmiss : "revenue" ∉ df.colNames ∨ "cost" ∉ df.colNames) :
    ∃ c, c ∉ df.colNames ∧ (c = "revenue" ∨ c = "cost") ∧
      Event.logError ("Missing required column: " ++ c) ∈ runScript w ∧
      exitCode (runScript w) = some 1 ∧
      summaryRows (runScript w) = none ∧
      writesChart (runScript w) = false := by
  by_cases hr : "revenue" ∈ df.colNames
  · have hc : "cost" ∉ df.colNames := by
      rcases hmiss with h | h
      · exact absurd hr h
      · exact h
    have hchk : checkRequired df = some "cost" := by simp [checkRequired, hr, hc]
    refine ⟨"cost", hc, Or.inr rfl, ?_, ?_, ?_, ?_⟩ <;>
      simp [runScript, afterConfig, hcfg, hload, hchk, exitCode, summaryRows,
        writesChart]
  · have hchk : checkRequired df = some "revenue" := by simp [checkRequired, hr]
    refine ⟨"revenue", hr, Or.inl rfl, ?_, ?_, ?_, ?_⟩ <;>
      simp [runScript, afterConfig, hcfg, hload, hchk, exitCode, summaryRows,
        writesChart]

/-- Witness for C4 on a concrete table missing `cost`. -/
theorem c4_witness :
    ∃ c, c ∉ dfMissing.colNames ∧ (c = "revenue" ∨ c = "cost") ∧
      Event.logError ("Missing required column: " ++ c) ∈ runScript w4 ∧
      exitCode (runScript w4) = some 1 ∧
      summaryRows (runScript w4) = none ∧
      writesChart (runScript w4) = false :=
  c4_missing_column w4 cfg0 dfMissing rfl rfl (Or.inr (by decide))

/-- Claim C5: a fault in the daily-revenue grouping or chart rendering is
logged but does not terminate the run: the exit status is still 0 and the
summary artifact holds exactly the aggregated summary, unaffected by the
failure. -/
theorem c5_plot_failure_isolated (w : World) (cfg : Config) (df df2 : DataFrame)
    (agg : Agg) (hcfg : w.config = some cfg) (hload : w.load = LoadOutcome.ok df)
    (hchk : checkRequired df = none) (hagg : aggregateStage df = some (df2, agg))
    (hsw : w.summaryWriteFails = false)
    (herr : dailyRevenueOf df2 cfg.date_column = none ∨ w.plotFails = true) :
    exitCode (runScript w) = some 0 ∧
    summaryRows (runScript w) = some (mkSummary agg) ∧
    (∃ m, Event.logError m ∈ runScript w) := by
  have hpe : plotEvents w cfg df2 = [Event.logError "Error plotting daily revenue"] := by
    rcases herr with herr | herr
    · simp [plotEvents, herr]
    · cases hdr : dailyRevenueOf df2 cfg.date_column with
      | none => simp [plotEvents, hdr]
      | some s => simp [plotEvents, hdr, herr]
  refine ⟨?_, ?_, ⟨"Error plotting daily revenue", ?_⟩⟩ <;>
    simp [runScript, afterConfig, hcfg, hload, hchk, hagg, hsw, hpe, exitCode,
      summaryRows]

/-- Witness for C5 on a concrete run whose chart rendering faults. -/
theorem c5_witness :
    exitCode (runScript w5) = some 0 ∧
    summaryRows (runScript w5) = some (mkSummary agg5w) ∧
    (∃ m, Event.logError m ∈ runScript w5) :=
  c5_plot_failure_isolated w5 cfg0 df5w df5wOut agg5w rfl rfl (by decide)
    (by simp [aggregateStage, getNumCol, getCol, df5w, asNums, setCol,
      DataFrame.colNames, List.lookup, df5wOut, agg5w])
    rfl (Or.inr rfl)

/-- Claim C6: when `total_revenue` is nonzero, the Profit Margin (%) entry
of the summary is `round((total_profit / total_revenue) * 100, 2)`, the
underlying ratio is the unaltered quotient, and the other three summary
values are the unrounded column sums. -/
theorem c6_margin_rounding (df df2 : DataFrame) (agg : Agg) (rev cost : List ℚ)
    (hagg : aggregateStage df = some (df2, agg))
    (hrev : getNumCol df "revenue" = some rev)
    (hcost : getNumCol df "cost" = some cost)
    (hne : agg.total_revenue ≠ 0) :
    mkSummary agg =
      [("Total Revenue", rev.sum), ("Total Cost", cost.sum),
       ("Total Profit", (List.zipWith (fun a b => a - b) rev cost).sum),
       ("Profit Margin (%)",
         round2 ((agg.total_profit / agg.total_revenue) * 100))] ∧
    agg.profit_margin = agg.total_profit / agg.total_revenue := by
  obtain ⟨rev', cost', hr, hc, _, htr, htc, htp, hpm⟩ := aggregateStage_inv hagg
  rw [hrev] at hr
  rw [hcost] at hc
  obtain rfl : rev = rev' := Option.some.inj hr
  obtain rfl : cost = cost' := Option.some.inj hc
  have hmargin : agg.profit_margin = agg.total_profit / agg.total_revenue := by
    rw [hpm, if_pos (htr ▸ hne), htp, htr]
  refine ⟨?_, hmargin⟩
  simp [mkSummary, htr, htc, htp, hmargin]

/-- Witness for C6 on a concrete one-row table with nonzero revenue. -/
theorem c6_witness :
    mkSummary agg5w =
      [("Total Revenue", ([5] : List ℚ).sum), ("Total Cost", ([2] : List ℚ).sum),
       ("Total Profit", (List.zipWith (fun a b => a - b) ([5] : List ℚ) [2]).sum),
       ("Profit Margin (%)",
         round2 ((agg5w.total_profit / agg5w.total_revenue) * 100))] ∧
    agg5w.profit_margin = agg5w.total_profit / agg5w.total_revenue :=
  c6_margin_rounding df5w df5wOut agg5w [5] [2]
    (by simp [aggregateStage, getNumCol, getCol, df5w, asNums, setCol,
      DataFrame.colNames, List.lookup, df5wOut, agg5w])
    (by simp [getNumCol, getCol, df5w, asNums, List.lookup])
    (by simp [getNumCol, getCol, df5w, asNums, List.lookup])
    (by simp [agg5w])

/-- Claim C7: on scenario A — rows `(d1, 100, 40)`, `(d1, 50, 10)`,
`(d2, 0, 0)` — the totals are revenue 150, cost 50, profit 100, the
reported margin is 66.67, and the daily revenue series is
`{d1 : 150, d2 : 0}`. -/
theorem c7_scenario_a :
    aggregateStage df7 = some (df7out, agg7) ∧
    agg7.total_revenue = 150 ∧ agg7.total_cost = 50 ∧ agg7.total_profit = 100 ∧
    round2 (agg7.profit_margin * 100) = 6667 / 100 ∧
    dailyRevenueOf df7out "date" = some [(1, 150), (2, 0)] := by
  refine ⟨?_, rfl, rfl, rfl, ?_, ?_⟩
  · simp [aggregateStage, getNumCol, getCol, df7, asNums, setCol,
      DataFrame.colNames, List.lookup, df7out, agg7]
    norm_num
  · simp [round2, agg7]
    norm_num [round_eq]
  · simp [dailyRevenueOf, getNumCol, getCol, df7out, df7, asNums, asDates,
      List.lookup, dailyRevenue, sumFor, List.insertionSort, List.orderedInsert,
      List.dedup]
    norm_num

/-- Claim C8: the aggregation stage appends the derived `profit` column
(whose name is fresh for any loaded CSV without a `profit` column) at the
end of the table and leaves everything else unchanged: the original columns
keep their order and their values row for row. -/
theorem c8_frame (df df2 : DataFrame) (agg : Agg) (rev cost : List ℚ)
    (hagg : aggregateStage df = some (df2, agg))
    (hrev : getNumCol df "revenue" = some rev)
    (hcost : getNumCol df "cost" = some cost)
    (hfresh : "profit" ∉ df.colNames) :
    df2.cols =
      df.cols ++ [("profit", (List.zipWith (fun a b => a - b) rev cost).map Value.num)] ∧
    (∀ c, c ∈ df.colNames → getCol df2 c = getCol df c) := by
  obtain ⟨rev', cost', hr, hc, hdf, _, _, _, _⟩ := aggregateStage_inv hagg
  rw [hrev] at hr
  rw [hcost] at hc
  obtain rfl : rev = rev' := Option.some.inj hr
  obtain rfl : cost = cost' := Option.some.inj hc
  have h2 : df2.cols =
      df.cols ++ [("profit", (List.zipWith (fun a b => a - b) rev cost).map Value.num)] := by
    rw [hdf, setCol_fresh hfresh]
  refine ⟨h2, fun c hcmem => ?_⟩
  unfold getCol
  rw [h2]
  exact lookup_append_left hcmem

/-- Witness for C8 on a concrete one-row table. -/
theorem c8_witness :
    df5wOut.cols =
      df5w.cols ++
        [("profit", (List.zipWith (fun a b => a - b) ([5] : List ℚ) [2]).map Value.num)] ∧
    (∀ c, c ∈ df5w.colNames → getCol df5wOut c = getCol df5w c) :=
  c8_frame df5w df5wOut agg5w [5] [2]
    (by simp [aggregateStage, getNumCol, getCol, df5w, asNums, setCol,
      DataFrame.colNames, List.lookup, df5wOut, agg5w])
    (by simp [getNumCol, getCol, df5w, asNums, List.lookup])
    (by simp [getNumCol, getCol, df5w, asNums, List.lookup])
    (by decide)

/-- Claim C9: on a zero-row table that still has the `revenue` and `cost`
columns, the aggregation succeeds with all three totals 0, reported margin
0, and the summary still has its four rows. -/
theorem c9_empty_table (df : DataFrame)
    (hrev : getCol df "revenue" = some []) (hcost : getCol df "cost" = some []) :
    aggregateStage df = some (setCol df "profit" [], ⟨0, 0, 0, 0⟩) ∧
    mkSummary ⟨0, 0, 0, 0⟩ =
      [("Total Revenue", 0), ("Total Cost", 0), ("Total Profit", 0),
       ("Profit Margin (%)", 0)] := by
  constructor
  · have h1 : getNumCol df "revenue" = some [] := by
      unfold getNumCol
      rw [hrev]
      rfl
    have h2 : getNumCol df "cost" = some [] := by
      unfold getNumCol
      rw [hcost]
      rfl
    simp [aggregateStage, h1, h2, asNums]
  · simp [mkSummary, round2]

/-- Witness for C9 on a concrete zero-row table. -/
theorem c9_witness :
    aggregateStage dfEmpty = some (setCol dfEmpty "profit" [], ⟨0, 0, 0, 0⟩) ∧
    mkSummary ⟨0, 0, 0, 0⟩ =
      [("Total Revenue", 0), ("Total Cost", 0), ("Total Profit", 0),
       ("Profit Margin (%)", 0)] :=
  c9_empty_table dfEmpty
    (by simp [getCol, dfEmpty, List.lookup])
    (by simp [getCol, dfEmpty, List.lookup])

/-- Claim C10: on every run whose configuration loads, the very first
observable step is the creation of the output directory, before logging
setup (and hence before data load, validation, and aggregation); in
particular the directory is created on every such path, including the ones
that later exit fatally. -/
theorem c10_mkdir_first (w : World) (cfg : Config) (hcfg : w.config = some cfg) :
    (∃ t, runScript w = Event.mkdirOutput :: Event.logSetup :: t) ∧
    Event.mkdirOutput ∈ runScript w := by
  have h : runScript w =
      Event.mkdirOutput :: Event.logSetup :: Event.logInfo "Script started" ::
        afterConfig w cfg := by
    simp [runScript, hcfg]
  exact ⟨⟨Event.logInfo "Script started" :: afterConfig w cfg, h⟩,
    h ▸ List.mem_cons_self _ _⟩

/-- Witness for C10 on a concrete successful run. -/
theorem c10_witness :
    (∃ t, runScript w10 = Event.mkdirOutput :: Event.logSetup :: t) ∧
    Event.mkdirOutput ∈ runScript w10 :=
  c10_mkdir_first w10 cfg0 rfl
